import Mathlib

set_option autoImplicit false

/-!
# Dashboard template routes (rest/routes/dashboardTemplate.go)

A shallow embedding of the HTTP handlers of the dashboard template routes and of the
library calls they make, followed by the properties of the response dispatcher
(handleDashboardError, handleDashboardResponse) and of the six endpoint handlers.

Layout of the embedding:

* Go error values are trees (GoError); errors.Is walks the Unwrap chain.
* strconv.ParseUint is transcribed with its uint64 overflow checks.
* http.ResponseWriter is a record of the header map, the status sent by the first
  WriteHeader, the header snapshot sent with it, and the values written to the body.
* The service layer, the models package and the JSON decoder are not part of this file
  of the repository; they are parameters (Env) of every handler.
* A handler is a function from the environment, the request and the state before the call
  to the state after it; a failed type assertion on the request context is a panic (none).
-/

/-! ## Go error values -/

namespace errors

/-- The two package level error variables that the dispatcher tests with errors.Is:
gorm.ErrRecordNotFound and util.ErrNotAuthorized. -/
inductive Sentinel
  | gormErrRecordNotFound
  | utilErrNotAuthorized
  deriving DecidableEq, Repr

end errors

/-- A Go error value. A leaf carries the text returned by Error() and, when the value is one
of the two sentinel variables (or reports itself as one through an Is method), which one.
A wrap node is an error with an Unwrap() error method (fmt.Errorf with one %w verb); a join
node is an error with an Unwrap() []error method (errors.Join, fmt.Errorf with two %w verbs).
The nil error is none in Option GoError. -/
inductive GoError
  | value (id : Option errors.Sentinel) (text : String)
  | wrap (text : String) (inner : GoError)
  | join (text : String) (left right : GoError)
  deriving DecidableEq, Repr

namespace GoError

/-- The Error() method: the text of the outermost error. -/
def Error : GoError → String
  | value _ text => text
  | wrap text _ => text
  | join text _ _ => text

end GoError

namespace errors

/-- The function errors.New: a freshly allocated error, distinct from every sentinel. -/
def New (text : String) : GoError := GoError.value none text

/-- The function errors.Is for a non-nil error and a sentinel target: true when the error or
any error reachable from it by Unwrap is the target. -/
def Is : GoError → Sentinel → Bool
  | GoError.value id _, target => id == some target
  | GoError.wrap _ inner, target => Is inner target
  | GoError.join _ left right, target => Is left target || Is right target

end errors

namespace gorm

/-- The variable gorm.ErrRecordNotFound, as a target of errors.Is. -/
abbrev ErrRecordNotFound : errors.Sentinel := errors.Sentinel.gormErrRecordNotFound

end gorm

namespace util

/-- The variable util.ErrNotAuthorized, as a target of errors.Is. -/
abbrev ErrNotAuthorized : errors.Sentinel := errors.Sentinel.utilErrNotAuthorized

/-- Modelled from the spec: the type util.ErrorResponse is declared outside this file;
the spec describes it as an envelope of one or more error strings under an Errors field. -/
structure ErrorResponse where
  Errors : List String
  deriving DecidableEq, Repr

/-- Modelled from the spec: the type util.ListResponse is declared outside this file;
the spec describes it as an ordered sequence of T under a Data field. -/
structure ListResponse (T : Type) where
  Data : List T
  deriving DecidableEq, Repr

/-- Modelled from the spec: the type util.EntityResponse is declared outside this file;
the spec describes it as a single T under a Data field. -/
structure EntityResponse (T : Type) where
  Data : T
  deriving DecidableEq, Repr

end util

/-! ## strconv.ParseUint -/

namespace strconv

/-- The error kinds of strconv.NumError that ParseUint can return. -/
inductive NumError
  | ErrSyntax
  | ErrRange
  | ErrBase
  | ErrBitSize
  deriving DecidableEq, Repr

/-- The constant maxUint64. -/
def maxUint64 : Nat := 18446744073709551615

/-- The helper lower: the byte with the 0x20 bit set. -/
def lower (c : Nat) : Nat := c ||| 32

/-- The digit switch of the ParseUint loop on one byte: 48..57 are the decimal digits,
97..122 the lower case letters (digit values 10..35); any other byte is a syntax error. -/
def digitValue (c : Nat) : Option Nat :=
  if 48 ≤ c ∧ c ≤ 57 then some (c - 48)
  else if 97 ≤ lower c ∧ lower c ≤ 122 then some (lower c - 97 + 10)
  else none

/-- The loop of ParseUint over the input, with the uint64 accumulator n. Go ranges over
the bytes of the string; a character above U+007F is encoded in bytes that are all at
least 0x80, so its first byte takes the default case of the switch exactly as its code
point does here. -/
def parseUintLoop (base cutoff maxVal : Nat) : List Char → Nat → Nat × Option NumError
  | [], n => (n, none)
  | c :: cs, n =>
    match digitValue c.toNat with
    | none => (0, some NumError.ErrSyntax)
    | some d =>
      if d ≥ base then (0, some NumError.ErrSyntax)
      else if n ≥ cutoff then (maxVal, some NumError.ErrRange)
      else
        let n0 := (n * base) % 2 ^ 64
        let n1 := (n0 + d) % 2 ^ 64
        if n1 < n0 ∨ n1 > maxVal then (maxVal, some NumError.ErrRange)
        else parseUintLoop base cutoff maxVal cs n1

/-- The function strconv.ParseUint(s, base, bitSize) for an explicit base 2..36 and an
explicit bit size 1..64 (the routes call it with 10 and 64). Base 0 (prefix detection) and
bit size 0 (platform int size) are outside this domain and reported as errors. -/
def ParseUint (s : String) (base bitSize : Nat) : Nat × Option NumError :=
  if s = "" then (0, some NumError.ErrSyntax)
  else if ¬ (2 ≤ base ∧ base ≤ 36) then (0, some NumError.ErrBase)
  else if ¬ (1 ≤ bitSize ∧ bitSize ≤ 64) then (0, some NumError.ErrBitSize)
  else parseUintLoop base (maxUint64 / base + 1) (2 ^ bitSize - 1) s.toList 0

end strconv

/-! ## net/http response writer -/

namespace http

def StatusOK : Nat := 200
def StatusNoContent : Nat := 204
def StatusBadRequest : Nat := 400
def StatusForbidden : Nat := 403
def StatusNotFound : Nat := 404
def StatusInternalServerError : Nat := 500

/-- The type http.Header: a map from (canonical) header names to value lists. -/
abbrev Header := List (String × List String)

/-- The method Header.Set: the key is bound to the single value, replacing any binding. -/
def Header.Set (h : Header) (key value : String) : Header :=
  (key, [value]) :: h.filter (fun kv => kv.1 != key)

/-- The method Header.Get: the first value bound to the key, or the empty string. -/
def Header.Get (h : Header) (key : String) : String :=
  match h.lookup key with
  | some (v :: _) => v
  | _ => ""

/-- The state of an http.ResponseWriter whose body receives values of type P:
the header map, the status sent by the first WriteHeader (none before it), the header
map as it was when the status was sent, and the values written to the body in order. -/
structure ResponseWriter (P : Type) where
  header : Header
  status : Option Nat
  sentHeader : Header
  body : List P

namespace ResponseWriter

variable {P : Type}

/-- A response writer on which nothing has been sent, with header map h. -/
def fresh (h : Header) : ResponseWriter P :=
  { header := h, status := none, sentHeader := [], body := [] }

/-- The call w.Header().Set(key, value). -/
def SetHeader (w : ResponseWriter P) (key value : String) : ResponseWriter P :=
  { w with header := w.header.Set key value }

/-- The method WriteHeader: the first call sends the status with the current header map;
later calls are ignored. -/
def WriteHeader (w : ResponseWriter P) (code : Nat) : ResponseWriter P :=
  match w.status with
  | some _ => w
  | none => { w with status := some code, sentHeader := w.header }

/-- The helper bodyAllowedForStatus of net/http. -/
def bodyAllowedForStatus (status : Nat) : Bool :=
  if 100 ≤ status ∧ status ≤ 199 then false
  else if status = 204 then false
  else if status = 304 then false
  else true

/-- The method Write: sends status 200 first when no status was sent, then appends to the
body unless the status sent forbids a body. -/
def Write (w : ResponseWriter P) (p : P) : ResponseWriter P :=
  let w1 := match w.status with
    | some _ => w
    | none => w.WriteHeader StatusOK
  match w1.status with
  | some code => if bodyAllowedForStatus code then { w1 with body := w1.body ++ [p] } else w1
  | none => w1

end ResponseWriter

end http

/-! ## Collaborators outside this file: models, service layer, request -/

namespace models

/-- The type models.AvailableTemplates: a string naming a dashboard category. -/
abbrev AvailableTemplates := String

/-- Modelled from the spec: the type models.UserIdentity is declared outside this file;
the spec describes it as carrying at minimum a unique user identifier (an unsigned ID). -/
structure UserIdentity where
  ID : Nat
  deriving DecidableEq, Repr

/-- Modelled from the spec: the types models.DashboardTemplate and
models.BaseDashboardTemplate are declared outside this file; the spec gives every success
body of the handlers as a JSON data envelope of them, so encoding/json is taken to encode
each of their values. -/
def encodable {T : Type} (_v : T) : Bool := true

end models

namespace service

/-- One invocation of a function of the service layer, with its arguments. D is the type
models.DashboardTemplate. -/
inductive Call (D : Type)
  | GetDashboardTemplate (userID : Nat) (dashboard : models.AvailableTemplates)
  | UpdateDashboardTemplate (templateId userID : Nat) (dashboardTemplate : D)
  | GetAllBaseTemplates
  | GetDashboardTemplateBase (dashboard : models.AvailableTemplates)
  | CopyDashboardTemplate (userID templateId : Nat)
  | DeleteTemplate (userID templateId : Nat)
  | ChangeDefaultTemplate (userID templateId : Nat)
  deriving DecidableEq, Repr

end service

/-- Everything the handlers consume that lives outside this file. D is the type
models.DashboardTemplate and B the type models.BaseDashboardTemplate. A handler makes at
most one service call per request, so the outcome of each service function for the store
as it is during the request is a function of its arguments.

* uintSize: the width in bits of the platform type uint (32 or 64).
* IsValid: the method models.AvailableTemplates.IsValid.
* Decode: json.NewDecoder(r.Body).Decode into a models.DashboardTemplate, as a function
  of the request body.
* the remaining fields: the functions of the service package, named as there. -/
structure Env (D B : Type) where
  uintSize : Nat
  IsValid : models.AvailableTemplates → Option GoError
  Decode : String → D × Option GoError
  GetDashboardTemplate : Nat → models.AvailableTemplates → List D × Option GoError
  UpdateDashboardTemplate : Nat → Nat → D → D × Option GoError
  GetAllBaseTemplates : List B
  GetDashboardTemplateBase : models.AvailableTemplates → B × Option GoError
  CopyDashboardTemplate : Nat → Nat → D × Option GoError
  DeleteTemplate : Nat → Nat → Option GoError
  ChangeDefaultTemplate : Nat → Nat → D × Option GoError

/-- The conversion uint(x) of a uint64 value on a platform whose uint has the given width. -/
def toUint (uintSize x : Nat) : Nat := x % 2 ^ uintSize

/-- The parts of an incoming request that the handlers read: the parsed query values
(r.URL.Query()), the route parameters of the chi route context in the order they were
bound, the value stored in the request context under util.USER_CTX_KEY when it is a
models.UserIdentity (none when it is absent or of another type), and the request body. -/
structure Request where
  query : List (String × List String)
  urlParams : List (String × String)
  user : Option models.UserIdentity
  body : String

namespace url

/-- The method url.Values.Get: the first value bound to the key, or the empty string. -/
def Get (q : List (String × List String)) (key : String) : String :=
  match q.lookup key with
  | some (v :: _) => v
  | _ => ""

end url

namespace chi

/-- The function chi.URLParam: the value of the last route parameter bound under the key,
or the empty string. -/
def URLParam (r : Request) (key : String) : String :=
  (r.urlParams.reverse.lookup key).getD ""

end chi

/-! ## The routes -/

namespace routes

/-- The two instantiations of the type parameter RespType of handleDashboardResponse. -/
inductive RespType (T : Type)
  | list (resp : util.ListResponse T)
  | entity (resp : util.EntityResponse T)
  deriving DecidableEq, Repr

/-- A value passed to json.NewEncoder(w).Encode and written to the response body:
an error envelope or a success envelope. The JSON text itself is produced by
encoding/json from struct tags declared outside this file and is not modelled. -/
inductive Encoded (T : Type)
  | errors (resp : util.ErrorResponse)
  | data (rep : RespType T)
  deriving DecidableEq, Repr

/-- The observable state of one request: the response writer, the lines logged through
logrus, the service calls made, how many times the request body was decoded, and (as a
history variable) the argument of every call of handleDashboardError. T is the data type
of the success envelopes of the handler, D the type models.DashboardTemplate. -/
structure State (T D : Type) where
  w : http.ResponseWriter (Encoded T)
  logged : List GoError
  calls : List (service.Call D)
  bodyDecodes : Nat
  dispatched : List (Option GoError)

namespace State

variable {T D : Type}

/-- The state in which the server invokes a handler: nothing sent, nothing logged, no
service call made; h is the header map as middleware left it. -/
def init (h : http.Header) : State T D :=
  { w := http.ResponseWriter.fresh h, logged := [], calls := [], bodyDecodes := 0,
    dispatched := [] }

end State

/-- Whether encoding/json can encode a value handed to Encode, given which values of the
data type T it can encode (ok): an error envelope holds only strings and always encodes; a
list envelope encodes when every element does, an entity envelope when its value does. -/
def Encoded.marshals {T : Type} (ok : T → Bool) : Encoded T → Bool
  | Encoded.errors _ => true
  | Encoded.data (RespType.list resp) => resp.Data.all ok
  | Encoded.data (RespType.entity resp) => ok resp.Data

/-- The call json.NewEncoder(w).Encode(v) with its error result discarded, as everywhere in
this file: the value is marshalled first and written to w only when that succeeds; when it
fails nothing is written. -/
def Encode {T : Type} (ok : T → Bool) (w : http.ResponseWriter (Encoded T)) (v : Encoded T) :
    http.ResponseWriter (Encoded T) :=
  if v.marshals ok then w.Write v else w

/-- The function handleDashboardError (lines 17-50). The value it encodes is always a
util.ErrorResponse, which encodes whatever the data type T is. -/
def handleDashboardError {T D : Type} (err : Option GoError) (st : State T D) : State T D :=
  let st := { st with
    w := st.w.SetHeader "Content-Type" "application/json",
    dispatched := st.dispatched ++ [err] }
  match err with
  | some e =>
    if errors.Is e gorm.ErrRecordNotFound then
      let resp : util.ErrorResponse := { Errors := [e.Error] }
      let w := st.w.WriteHeader http.StatusNotFound
      { st with w := Encode (fun _ => true) w (Encoded.errors resp) }
    else if errors.Is e util.ErrNotAuthorized then
      let resp : util.ErrorResponse := { Errors := ["not authorized"] }
      let w := st.w.WriteHeader http.StatusForbidden
      { st with w := Encode (fun _ => true) w (Encoded.errors resp) }
    else
      let st := { st with logged := st.logged ++ [e] }
      let resp : util.ErrorResponse := { Errors := [e.Error] }
      let w := st.w.WriteHeader http.StatusBadRequest
      { st with w := Encode (fun _ => true) w (Encoded.errors resp) }
  | none =>
    let resp : util.ErrorResponse := { Errors := ["internal server error"] }
    let w := st.w.WriteHeader http.StatusInternalServerError
    { st with w := Encode (fun _ => true) w (Encoded.errors resp) }

/-- The function handleDashboardResponse (lines 52-61). The type parameter T is
unconstrained; ok tells which values of T encoding/json can encode. -/
def handleDashboardResponse {T D : Type} (ok : T → Bool) (rep : RespType T)
    (err : Option GoError) (st : State T D) : State T D :=
  let st := { st with w := st.w.SetHeader "Content-Type" "application/json" }
  match err with
  | some e => handleDashboardError (some e) st
  | none =>
    let w := st.w.WriteHeader http.StatusOK
    { st with w := Encode ok w (Encoded.data rep) }

/-- The handler GetDashboardTemplates (lines 63-84). -/
def GetDashboardTemplates {D B : Type} (env : Env D B) (r : Request) (st : State D D) :
    Option (State D D) :=
  let dashboardParam := url.Get r.query "dashboard"
  match r.user with
  | none => none
  | some user =>
    let userID := user.ID
    let dashboard : models.AvailableTemplates := dashboardParam
    let err := env.IsValid dashboard
    if dashboard ≠ "" ∧ err ≠ none then
      some (handleDashboardError err st)
    else
      let (userDashboardTemplates, err) := env.GetDashboardTemplate userID dashboard
      let st := { st with calls := st.calls ++ [service.Call.GetDashboardTemplate userID dashboard] }
      let response : util.ListResponse D := { Data := userDashboardTemplates }
      some (handleDashboardResponse models.encodable (RespType.list response) err st)

/-- The handler UpdateDashboardTemplate (lines 86-111). -/
def UpdateDashboardTemplate {D B : Type} (env : Env D B) (r : Request) (st : State D D) :
    Option (State D D) :=
  let templateID := chi.URLParam r "templateId"
  match r.user with
  | none => none
  | some user =>
    let userID := user.ID
    let (templateIdUint, err) := strconv.ParseUint templateID 10 64
    if err ≠ none then
      some (handleDashboardError (some (errors.New "invalid template ID")) st)
    else
      let (dashboardTemplate, err) := env.Decode r.body
      let st := { st with bodyDecodes := st.bodyDecodes + 1 }
      if err ≠ none then
        some (handleDashboardError
          (some (errors.New "unable to parse payload to dashboard template")) st)
      else
        let (updatedTemplate, err) :=
          env.UpdateDashboardTemplate (toUint env.uintSize templateIdUint) userID dashboardTemplate
        let st := { st with calls := st.calls ++
          [service.Call.UpdateDashboardTemplate (toUint env.uintSize templateIdUint) userID
            dashboardTemplate] }
        let resp : util.EntityResponse D := { Data := updatedTemplate }
        some (handleDashboardResponse models.encodable (RespType.entity resp) err st)

/-- The handler GetBaseDashboardTemplates (lines 113-132). It does not read the request
context, so it has no panic path. -/
def GetBaseDashboardTemplates {D B : Type} (env : Env D B) (r : Request) (st : State B D) :
    State B D :=
  let dashboardParam := url.Get r.query "dashboard"
  if dashboardParam = "" then
    let templates := env.GetAllBaseTemplates
    let st := { st with calls := st.calls ++ [service.Call.GetAllBaseTemplates] }
    let resp : util.ListResponse B := { Data := templates }
    handleDashboardResponse models.encodable (RespType.list resp) none st
  else
    let (template, err) := env.GetDashboardTemplateBase dashboardParam
    let st := { st with calls := st.calls ++ [service.Call.GetDashboardTemplateBase dashboardParam] }
    let resp : util.EntityResponse B := { Data := template }
    handleDashboardResponse models.encodable (RespType.entity resp) err st

/-- The handler CopyDashboardTemplate (lines 134-154). -/
def CopyDashboardTemplate {D B : Type} (env : Env D B) (r : Request) (st : State D D) :
    Option (State D D) :=
  let templateID := chi.URLParam r "templateId"
  match r.user with
  | none => none
  | some user =>
    let userID := user.ID
    let (templateIdUint, err) := strconv.ParseUint templateID 10 64
    if err ≠ none then
      some (handleDashboardError (some (errors.New "invalid template ID")) st)
    else
      let (dashboardTemplate, err) :=
        env.CopyDashboardTemplate userID (toUint env.uintSize templateIdUint)
      let st := { st with calls := st.calls ++
        [service.Call.CopyDashboardTemplate userID (toUint env.uintSize templateIdUint)] }
      let response : util.EntityResponse D := { Data := dashboardTemplate }
      some (handleDashboardResponse models.encodable (RespType.entity response) err st)

/-- The handler DeleteDashboardTemplate (lines 156-174). -/
def DeleteDashboardTemplate {D B : Type} (env : Env D B) (r : Request) (st : State D D) :
    Option (State D D) :=
  let templateID := chi.URLParam r "templateId"
  match r.user with
  | none => none
  | some user =>
    let userID := user.ID
    let (templateIdUint, err) := strconv.ParseUint templateID 10 64
    if err ≠ none then
      some (handleDashboardError (some (errors.New "invalid template ID")) st)
    else
      let err := env.DeleteTemplate userID (toUint env.uintSize templateIdUint)
      let st := { st with calls := st.calls ++
        [service.Call.DeleteTemplate userID (toUint env.uintSize templateIdUint)] }
      if err ≠ none then
        some (handleDashboardError err st)
      else
        some { st with w := st.w.WriteHeader http.StatusNoContent }

/-- The handler ChangeDefaultTemplate (lines 176-193). -/
def ChangeDefaultTemplate {D B : Type} (env : Env D B) (r : Request) (st : State D D) :
    Option (State D D) :=
  let templateID := chi.URLParam r "templateId"
  match r.user with
  | none => none
  | some user =>
    let userID := user.ID
    let (templateIdUint, err) := strconv.ParseUint templateID 10 64
    if err ≠ none then
      some (handleDashboardError (some (errors.New "invalid template ID")) st)
    else
      let (dashboardTemplate, err) :=
        env.ChangeDefaultTemplate userID (toUint env.uintSize templateIdUint)
      let st := { st with calls := st.calls ++
        [service.Call.ChangeDefaultTemplate userID (toUint env.uintSize templateIdUint)] }
      let resp : util.EntityResponse D := { Data := dashboardTemplate }
      some (handleDashboardResponse models.encodable (RespType.entity resp) err st)

end routes

/-! ## Specification side definitions -/

namespace spec

/-- The decimal digits, by code point: 48..57. -/
def isDecimalDigit (c : Char) : Bool := decide (48 ≤ c.toNat) && decide (c.toNat ≤ 57)

/-- The number denoted by a string of decimal digits, continuing from the value acc. -/
def decimalValueFrom (acc : Nat) (cs : List Char) : Nat :=
  cs.foldl (fun a c => a * 10 + (c.toNat - 48)) acc

/-- The number denoted by a string of decimal digits. -/
def decimalValue (s : String) : Nat := decimalValueFrom 0 s.toList

/-- A non-empty string of decimal digits. -/
def IsDecimal (s : String) : Prop := s ≠ "" ∧ ∀ c ∈ s.toList, isDecimalDigit c = true

/-- The strings that parse as a base-10 unsigned 64-bit integer: non-empty, decimal digits
only (so no sign), and denoting a number below 2^64. -/
def ParsesAsUint64 (s : String) : Prop := IsDecimal s ∧ decimalValue s < 2 ^ 64

/-- The ordered error classification in the words of the spec: record not found, then not
authorized, then any other error, then the fallback for no error; each with its status and
the list of error strings of the envelope. -/
def classify (err : Option GoError) : Nat × List String :=
  match err with
  | none => (500, ["internal server error"])
  | some e =>
    if errors.Is e gorm.ErrRecordNotFound then (404, [e.Error])
    else if errors.Is e util.ErrNotAuthorized then (403, ["not authorized"])
    else (400, [e.Error])

instance instDecidableIsDecimal (s : String) : Decidable (IsDecimal s) := by
  unfold IsDecimal
  exact inferInstance

instance instDecidableParsesAsUint64 (s : String) : Decidable (ParsesAsUint64 s) := by
  unfold ParsesAsUint64
  exact inferInstance

/-- A response that is a success envelope with status 200. -/
def isSuccessResponse {T : Type} (w : http.ResponseWriter (routes.Encoded T)) : Bool :=
  (w.status == some 200) &&
  match w.body with
  | [routes.Encoded.data _] => true
  | _ => false

/-- A response that is an error envelope with a 4xx or 5xx status. -/
def isErrorResponse {T : Type} (w : http.ResponseWriter (routes.Encoded T)) : Bool :=
  (match w.status with
   | some code => decide (400 ≤ code) && decide (code < 600)
   | none => false) &&
  match w.body with
  | [routes.Encoded.errors _] => true
  | _ => false

/-- A response with status 204 and an empty body. -/
def isNoContentResponse {T : Type} (w : http.ResponseWriter (routes.Encoded T)) : Bool :=
  (w.status == some 204) && w.body.isEmpty

/-- The response of a handler to a template id that does not parse: status 400, the error
envelope with the single string invalid template ID, no service call, body not decoded. -/
def RejectsTemplateId {D : Type} (res : Option (routes.State D D)) : Prop :=
  ∃ st, res = some st ∧ st.w.status = some 400 ∧
    st.w.body = [routes.Encoded.errors { Errors := ["invalid template ID"] }] ∧
    st.calls = [] ∧ st.bodyDecodes = 0

/-- The states a handler can leave behind when it ends in the dispatcher, started by the
server with header map h: the result of handleDashboardError on an error, or of
handleDashboardResponse, applied to a state whose writer is untouched and in which the
dispatcher has not been called. -/
def Dispatched {T D : Type} (h : http.Header) (st : routes.State T D) : Prop :=
  ∃ st0 : routes.State T D, st0.w = http.ResponseWriter.fresh h ∧ st0.dispatched = [] ∧
    ((∃ e, st = routes.handleDashboardError (some e) st0) ∨
     (∃ rep err, st = routes.handleDashboardResponse models.encodable rep err st0))

end spec

/-! ## Concrete inputs used to exercise the theorems -/

namespace sample

/-- The error fmt.Errorf("lookup: %w; %w", gorm.ErrRecordNotFound, util.ErrNotAuthorized):
it matches both sentinels. -/
def errBoth : GoError :=
  GoError.join "lookup: record not found; not authorized"
    (GoError.value (some gorm.ErrRecordNotFound) "record not found")
    (GoError.value (some util.ErrNotAuthorized) "not authorized")

/-- The error fmt.Errorf("template 42 is owned by user 7: %w", util.ErrNotAuthorized). -/
def errNotOwner : GoError :=
  GoError.wrap "template 42 is owned by user 7: not authorized"
    (GoError.value (some util.ErrNotAuthorized) "not authorized")

/-- An error of the store that matches neither sentinel. -/
def errStore : GoError := errors.New "connection refused"

/-- A service environment over string templates: landingPage is the only recognised
category, every service call succeeds except DeleteTemplate, which returns del; the
platform uint has the given width. -/
def env (uintSize : Nat) (del : Option GoError) : Env String String :=
  { uintSize := uintSize
    IsValid := fun d =>
      if d = "landingPage" then none else some (errors.New "invalid dashboard template")
    Decode := fun body => (body, none)
    GetDashboardTemplate := fun _ _ => (["user template"], none)
    UpdateDashboardTemplate := fun _ _ d => (d, none)
    GetAllBaseTemplates := ["base landingPage"]
    GetDashboardTemplateBase := fun d =>
      if d = "landingPage" then ("base landingPage", none)
      else ("", some (errors.New "invalid dashboard template"))
    CopyDashboardTemplate := fun _ _ => ("copy", none)
    DeleteTemplate := fun _ _ => del
    ChangeDefaultTemplate := fun _ _ => ("default", none) }

/-- A data type with a value that encoding/json cannot encode, as float64 has with NaN:
a reading is a number or not a number. -/
inductive Reading
  | finite (n : Int)
  | nan
  deriving DecidableEq, Repr

/-- Which readings encoding/json can encode: every one but nan. -/
def Reading.encodable : Reading → Bool
  | Reading.finite _ => true
  | Reading.nan => false

/-- A request of user 7 with the given templateId route parameter and dashboard query
value, and an empty body. -/
def request (templateId dashboard : String) : Request :=
  { query := [("dashboard", [dashboard])]
    urlParams := [("templateId", templateId)]
    user := some { ID := 7 }
    body := "" }

end sample

/-! ## strconv.ParseUint against the decimal reading of the string -/

theorem le_decimalValueFrom (cs : List Char) (n : Nat) : n ≤ spec.decimalValueFrom n cs := by
  induction cs generalizing n with
  | nil => simp [spec.decimalValueFrom]
  | cons c cs ih =>
    have h := ih (n * 10 + (c.toNat - 48))
    simp only [spec.decimalValueFrom, List.foldl_cons] at h ⊢
    omega

theorem digitValue_digit (c : Nat) (h : 48 ≤ c ∧ c ≤ 57) :
    strconv.digitValue c = some (c - 48) := by
  simp [strconv.digitValue, h]

theorem digitValue_not_digit (c d : Nat) (h : ¬ (48 ≤ c ∧ c ≤ 57))
    (hd : strconv.digitValue c = some d) : 10 ≤ d := by
  unfold strconv.digitValue at hd
  rw [if_neg h] at hd
  split at hd
  · injection hd with hd; omega
  · cases hd

theorem parseUintLoop_ok (cs : List Char) (n : Nat)
    (hd : ∀ c ∈ cs, spec.isDecimalDigit c = true)
    (hv : spec.decimalValueFrom n cs < 2 ^ 64) :
    strconv.parseUintLoop 10 1844674407370955162 18446744073709551615 cs n
      = (spec.decimalValueFrom n cs, none) := by
  induction cs generalizing n with
  | nil => simp [strconv.parseUintLoop, spec.decimalValueFrom]
  | cons c cs ih =>
    have hc : 48 ≤ c.toNat ∧ c.toNat ≤ 57 := by
      have := hd c (List.mem_cons_self _ _)
      simpa [spec.isDecimalDigit] using this
    have hrest : ∀ x ∈ cs, spec.isDecimalDigit x = true :=
      fun x hx => hd x (List.mem_cons_of_mem _ hx)
    have hv2 : spec.decimalValueFrom (n * 10 + (c.toNat - 48)) cs < 2 ^ 64 := by
      simpa [spec.decimalValueFrom] using hv
    have hle := le_decimalValueFrom cs (n * 10 + (c.toNat - 48))
    have h64 : (2 : Nat) ^ 64 = 18446744073709551616 := by norm_num
    rw [h64] at hv2
    have e1 : n * 10 % 18446744073709551616 = n * 10 := Nat.mod_eq_of_lt (by omega)
    have e2 : (n * 10 + (c.toNat - 48)) % 18446744073709551616 = n * 10 + (c.toNat - 48) :=
      Nat.mod_eq_of_lt (by omega)
    have := ih (n * 10 + (c.toNat - 48)) hrest (by rw [h64]; exact hv2)
    unfold strconv.parseUintLoop
    rw [digitValue_digit _ hc]
    simp only [h64, e1, e2]
    rw [if_neg (by omega), if_neg (by omega), if_neg (by omega)]
    rw [this]
    simp [spec.decimalValueFrom]

theorem parseUintLoop_err (cs : List Char) (n : Nat) (hn : n < 2 ^ 64)
    (h : ¬ ((∀ c ∈ cs, spec.isDecimalDigit c = true) ∧ spec.decimalValueFrom n cs < 2 ^ 64)) :
    (strconv.parseUintLoop 10 1844674407370955162 18446744073709551615 cs n).2 ≠ none := by
  induction cs generalizing n with
  | nil => exact absurd ⟨by simp, by simpa [spec.decimalValueFrom] using hn⟩ h
  | cons c cs ih =>
    have h64 : (2 : Nat) ^ 64 = 18446744073709551616 := by norm_num
    unfold strconv.parseUintLoop
    by_cases hc : 48 ≤ c.toNat ∧ c.toNat ≤ 57
    · rw [digitValue_digit _ hc]
      simp only [h64]
      rw [if_neg (by omega)]
      have hle := le_decimalValueFrom cs (n * 10 + (c.toNat - 48))
      have hcd : spec.isDecimalDigit c = true := by simp [spec.isDecimalDigit, hc]
      have hfold : spec.decimalValueFrom n (c :: cs)
          = spec.decimalValueFrom (n * 10 + (c.toNat - 48)) cs := by
        simp [spec.decimalValueFrom]
      by_cases hcut : n ≥ 1844674407370955162
      · rw [if_pos hcut]; simp
      · rw [if_neg hcut]
        have e1 : n * 10 % 18446744073709551616 = n * 10 := Nat.mod_eq_of_lt (by omega)
        simp only [e1]
        by_cases hov : (n * 10 + (c.toNat - 48)) % 18446744073709551616 < n * 10 ∨
            (n * 10 + (c.toNat - 48)) % 18446744073709551616 > 18446744073709551615
        · rw [if_pos hov]; simp
        · rw [if_neg hov]
          have hlt : n * 10 + (c.toNat - 48) < 18446744073709551616 := by omega
          have e2 : (n * 10 + (c.toNat - 48)) % 18446744073709551616
              = n * 10 + (c.toNat - 48) := Nat.mod_eq_of_lt hlt
          rw [e2]
          apply ih _ (by rw [h64]; exact hlt)
          intro hh
          apply h
          refine ⟨?_, ?_⟩
          · intro x hx
            rcases List.mem_cons.mp hx with rfl | hx
            · exact hcd
            · exact hh.1 x hx
          · rw [hfold]; exact hh.2
    · cases hdv : strconv.digitValue c.toNat with
      | none => simp
      | some d =>
        have := digitValue_not_digit _ _ hc hdv
        simp only []
        rw [if_pos (by omega)]
        simp

theorem ParseUint_nonempty (s : String) (h : s ≠ "") :
    strconv.ParseUint s 10 64
      = strconv.parseUintLoop 10 1844674407370955162 18446744073709551615 s.toList 0 := by
  simp [strconv.ParseUint, h, strconv.maxUint64]

/-- A string that parses as an unsigned 64-bit decimal is accepted by ParseUint with its
decimal value. -/
theorem ParseUint_ok (s : String) (h : spec.ParsesAsUint64 s) :
    strconv.ParseUint s 10 64 = (spec.decimalValue s, none) := by
  rw [ParseUint_nonempty s h.1.1]
  exact parseUintLoop_ok s.toList 0 h.1.2 h.2

/-- Any other string is rejected by ParseUint. -/
theorem ParseUint_err (s : String) (h : ¬ spec.ParsesAsUint64 s) :
    (strconv.ParseUint s 10 64).2 ≠ none := by
  by_cases he : s = ""
  · subst he; decide
  · rw [ParseUint_nonempty s he]
    apply parseUintLoop_err _ _ (by norm_num)
    intro hh
    exact h ⟨⟨he, hh.1⟩, hh.2⟩

/-! ## The response writer and the dispatcher -/

theorem Header_Set_Set (h : http.Header) (k v : String) :
    (h.Set k v).Set k v = h.Set k v := by
  simp [http.Header.Set, List.filter_filter]

theorem Header_Get_Set (h : http.Header) (k v : String) : (h.Set k v).Get k = v := by
  simp [http.Header.Set, http.Header.Get, List.lookup]

/-- The response handleDashboardError writes on a writer that has not sent a status. -/
theorem handleDashboardError_w {T D : Type} (err : Option GoError) (st : routes.State T D)
    (h : st.w.status = none) :
    (routes.handleDashboardError err st).w =
      { header := st.w.header.Set "Content-Type" "application/json"
        status := some (spec.classify err).1
        sentHeader := st.w.header.Set "Content-Type" "application/json"
        body := st.w.body ++ [routes.Encoded.errors { Errors := (spec.classify err).2 }] } := by
  cases err with
  | none =>
    simp [routes.handleDashboardError, routes.Encode, routes.Encoded.marshals,
        http.ResponseWriter.Write,
      http.ResponseWriter.WriteHeader, http.ResponseWriter.SetHeader, h, spec.classify,
      http.ResponseWriter.bodyAllowedForStatus, http.StatusInternalServerError]
  | some e =>
    by_cases h1 : errors.Is e gorm.ErrRecordNotFound = true
    · simp [routes.handleDashboardError, routes.Encode, routes.Encoded.marshals,
        http.ResponseWriter.Write,
        http.ResponseWriter.WriteHeader, http.ResponseWriter.SetHeader, h, spec.classify,
        http.ResponseWriter.bodyAllowedForStatus, http.StatusNotFound, h1]
    · by_cases h2 : errors.Is e util.ErrNotAuthorized = true
      · simp [routes.handleDashboardError, routes.Encode, routes.Encoded.marshals,
        http.ResponseWriter.Write,
          http.ResponseWriter.WriteHeader, http.ResponseWriter.SetHeader, h, spec.classify,
          http.ResponseWriter.bodyAllowedForStatus, http.StatusForbidden, h1, h2]
      · simp [routes.handleDashboardError, routes.Encode, routes.Encoded.marshals,
        http.ResponseWriter.Write,
          http.ResponseWriter.WriteHeader, http.ResponseWriter.SetHeader, h, spec.classify,
          http.ResponseWriter.bodyAllowedForStatus, http.StatusBadRequest, h1, h2]

theorem handleDashboardError_calls {T D : Type} (err : Option GoError) (st : routes.State T D) :
    (routes.handleDashboardError err st).calls = st.calls := by
  unfold routes.handleDashboardError
  cases err with
  | none => rfl
  | some e => simp only []; split_ifs <;> rfl

theorem handleDashboardError_bodyDecodes {T D : Type} (err : Option GoError)
    (st : routes.State T D) :
    (routes.handleDashboardError err st).bodyDecodes = st.bodyDecodes := by
  unfold routes.handleDashboardError
  cases err with
  | none => rfl
  | some e => simp only []; split_ifs <;> rfl

theorem handleDashboardError_dispatched {T D : Type} (err : Option GoError)
    (st : routes.State T D) :
    (routes.handleDashboardError err st).dispatched = st.dispatched ++ [err] := by
  unfold routes.handleDashboardError
  cases err with
  | none => rfl
  | some e => simp only []; split_ifs <;> rfl

/-- Every envelope of the models types encodes. -/
theorem marshals_models {T : Type} (v : routes.Encoded T) :
    v.marshals models.encodable = true := by
  cases v with
  | errors resp => rfl
  | data rep =>
    cases rep with
    | list resp => simp [routes.Encoded.marshals, models.encodable]
    | entity resp => rfl

/-- With an error, handleDashboardResponse is handleDashboardError. -/
theorem handleDashboardResponse_some {T D : Type} (ok : T → Bool) (rep : routes.RespType T)
    (e : GoError) (st : routes.State T D) :
    routes.handleDashboardResponse ok rep (some e) st
      = routes.handleDashboardError (some e) st := by
  simp only [routes.handleDashboardResponse, routes.handleDashboardError,
    http.ResponseWriter.SetHeader, Header_Set_Set]

/-- Without an error, handleDashboardResponse sends 200 and, when the envelope encodes,
the success envelope. -/
theorem handleDashboardResponse_none {T D : Type} (ok : T → Bool) (rep : routes.RespType T)
    (st : routes.State T D) (h : st.w.status = none)
    (hm : (routes.Encoded.data rep).marshals ok = true) :
    routes.handleDashboardResponse ok rep none st =
      { st with w :=
        { header := st.w.header.Set "Content-Type" "application/json"
          status := some 200
          sentHeader := st.w.header.Set "Content-Type" "application/json"
          body := st.w.body ++ [routes.Encoded.data rep] } } := by
  simp [routes.handleDashboardResponse, routes.Encode, hm, http.ResponseWriter.Write,
    http.ResponseWriter.WriteHeader, http.ResponseWriter.SetHeader, h,
    http.ResponseWriter.bodyAllowedForStatus, http.StatusOK]

theorem classify_some_status (e : GoError) :
    400 ≤ (spec.classify (some e)).1 ∧ (spec.classify (some e)).1 < 500 := by
  unfold spec.classify
  simp only []
  split_ifs <;> simp

/-! ## The handlers, path by path -/

section paths

variable {D B : Type}

theorem templateId_bad_iff (s : String) :
    (strconv.ParseUint s 10 64).2 ≠ none ↔ ¬ spec.ParsesAsUint64 s := by
  constructor
  · intro h hp
    rw [ParseUint_ok s hp] at h
    exact h rfl
  · exact ParseUint_err s

theorem UpdateDashboardTemplate_bad (env : Env D B) (r : Request) (st : routes.State D D)
    (u : models.UserIdentity) (hu : r.user = some u)
    (hp : (strconv.ParseUint (chi.URLParam r "templateId") 10 64).2 ≠ none) :
    routes.UpdateDashboardTemplate env r st
      = some (routes.handleDashboardError (some (errors.New "invalid template ID")) st) := by
  rcases hq : strconv.ParseUint (chi.URLParam r "templateId") 10 64 with ⟨v, err⟩
  rw [hq] at hp
  simp only [routes.UpdateDashboardTemplate, hu, hq]
  simp at hp
  simp [hp]

theorem CopyDashboardTemplate_bad (env : Env D B) (r : Request) (st : routes.State D D)
    (u : models.UserIdentity) (hu : r.user = some u)
    (hp : (strconv.ParseUint (chi.URLParam r "templateId") 10 64).2 ≠ none) :
    routes.CopyDashboardTemplate env r st
      = some (routes.handleDashboardError (some (errors.New "invalid template ID")) st) := by
  rcases hq : strconv.ParseUint (chi.URLParam r "templateId") 10 64 with ⟨v, err⟩
  rw [hq] at hp
  simp only [routes.CopyDashboardTemplate, hu, hq]
  simp at hp
  simp [hp]

theorem DeleteDashboardTemplate_bad (env : Env D B) (r : Request) (st : routes.State D D)
    (u : models.UserIdentity) (hu : r.user = some u)
    (hp : (strconv.ParseUint (chi.URLParam r "templateId") 10 64).2 ≠ none) :
    routes.DeleteDashboardTemplate env r st
      = some (routes.handleDashboardError (some (errors.New "invalid template ID")) st) := by
  rcases hq : strconv.ParseUint (chi.URLParam r "templateId") 10 64 with ⟨v, err⟩
  rw [hq] at hp
  simp only [routes.DeleteDashboardTemplate, hu, hq]
  simp at hp
  simp [hp]

theorem ChangeDefaultTemplate_bad (env : Env D B) (r : Request) (st : routes.State D D)
    (u : models.UserIdentity) (hu : r.user = some u)
    (hp : (strconv.ParseUint (chi.URLParam r "templateId") 10 64).2 ≠ none) :
    routes.ChangeDefaultTemplate env r st
      = some (routes.handleDashboardError (some (errors.New "invalid template ID")) st) := by
  rcases hq : strconv.ParseUint (chi.URLParam r "templateId") 10 64 with ⟨v, err⟩
  rw [hq] at hp
  simp only [routes.ChangeDefaultTemplate, hu, hq]
  simp at hp
  simp [hp]

theorem UpdateDashboardTemplate_undecodable (env : Env D B) (r : Request)
    (st : routes.State D D) (u : models.UserIdentity) (n : Nat) (hu : r.user = some u)
    (hp : strconv.ParseUint (chi.URLParam r "templateId") 10 64 = (n, none))
    (hd : (env.Decode r.body).2 ≠ none) :
    routes.UpdateDashboardTemplate env r st
      = some (routes.handleDashboardError
          (some (errors.New "unable to parse payload to dashboard template"))
          { st with bodyDecodes := st.bodyDecodes + 1 }) := by
  rcases hq : env.Decode r.body with ⟨d, err⟩
  rw [hq] at hd
  simp only [routes.UpdateDashboardTemplate, hu, hp, hq]
  simp at hd
  simp [hd]

theorem UpdateDashboardTemplate_good (env : Env D B) (r : Request) (st : routes.State D D)
    (u : models.UserIdentity) (n : Nat) (d : D) (hu : r.user = some u)
    (hp : strconv.ParseUint (chi.URLParam r "templateId") 10 64 = (n, none))
    (hd : env.Decode r.body = (d, none)) :
    routes.UpdateDashboardTemplate env r st
      = some (routes.handleDashboardResponse models.encodable
          (routes.RespType.entity
            { Data := (env.UpdateDashboardTemplate (toUint env.uintSize n) u.ID d).1 })
          (env.UpdateDashboardTemplate (toUint env.uintSize n) u.ID d).2
          { st with
            bodyDecodes := st.bodyDecodes + 1
            calls := st.calls ++
              [service.Call.UpdateDashboardTemplate (toUint env.uintSize n) u.ID d] }) := by
  simp [routes.UpdateDashboardTemplate, hu, hp, hd]

theorem CopyDashboardTemplate_good (env : Env D B) (r : Request) (st : routes.State D D)
    (u : models.UserIdentity) (n : Nat) (hu : r.user = some u)
    (hp : strconv.ParseUint (chi.URLParam r "templateId") 10 64 = (n, none)) :
    routes.CopyDashboardTemplate env r st
      = some (routes.handleDashboardResponse models.encodable
          (routes.RespType.entity
            { Data := (env.CopyDashboardTemplate u.ID (toUint env.uintSize n)).1 })
          (env.CopyDashboardTemplate u.ID (toUint env.uintSize n)).2
          { st with calls := st.calls ++
              [service.Call.CopyDashboardTemplate u.ID (toUint env.uintSize n)] }) := by
  simp [routes.CopyDashboardTemplate, hu, hp]

theorem ChangeDefaultTemplate_good (env : Env D B) (r : Request) (st : routes.State D D)
    (u : models.UserIdentity) (n : Nat) (hu : r.user = some u)
    (hp : strconv.ParseUint (chi.URLParam r "templateId") 10 64 = (n, none)) :
    routes.ChangeDefaultTemplate env r st
      = some (routes.handleDashboardResponse models.encodable
          (routes.RespType.entity
            { Data := (env.ChangeDefaultTemplate u.ID (toUint env.uintSize n)).1 })
          (env.ChangeDefaultTemplate u.ID (toUint env.uintSize n)).2
          { st with calls := st.calls ++
              [service.Call.ChangeDefaultTemplate u.ID (toUint env.uintSize n)] }) := by
  simp [routes.ChangeDefaultTemplate, hu, hp]

theorem DeleteDashboardTemplate_failed (env : Env D B) (r : Request) (st : routes.State D D)
    (u : models.UserIdentity) (n : Nat) (e : GoError) (hu : r.user = some u)
    (hp : strconv.ParseUint (chi.URLParam r "templateId") 10 64 = (n, none))
    (hs : env.DeleteTemplate u.ID (toUint env.uintSize n) = some e) :
    routes.DeleteDashboardTemplate env r st
      = some (routes.handleDashboardError (some e)
          { st with calls := st.calls ++
              [service.Call.DeleteTemplate u.ID (toUint env.uintSize n)] }) := by
  simp [routes.DeleteDashboardTemplate, hu, hp, hs]

theorem DeleteDashboardTemplate_good (env : Env D B) (r : Request) (st : routes.State D D)
    (u : models.UserIdentity) (n : Nat) (hu : r.user = some u)
    (hp : strconv.ParseUint (chi.URLParam r "templateId") 10 64 = (n, none))
    (hs : env.DeleteTemplate u.ID (toUint env.uintSize n) = none) :
    routes.DeleteDashboardTemplate env r st
      = some { st with
          calls := st.calls ++ [service.Call.DeleteTemplate u.ID (toUint env.uintSize n)]
          w := st.w.WriteHeader http.StatusNoContent } := by
  simp [routes.DeleteDashboardTemplate, hu, hp, hs]

theorem GetDashboardTemplates_invalid (env : Env D B) (r : Request) (st : routes.State D D)
    (u : models.UserIdentity) (e : GoError) (hu : r.user = some u)
    (hne : url.Get r.query "dashboard" ≠ "")
    (hv : env.IsValid (url.Get r.query "dashboard") = some e) :
    routes.GetDashboardTemplates env r st = some (routes.handleDashboardError (some e) st) := by
  simp [routes.GetDashboardTemplates, hu, hne, hv]

theorem GetDashboardTemplates_pass (env : Env D B) (r : Request) (st : routes.State D D)
    (u : models.UserIdentity) (hu : r.user = some u)
    (hok : url.Get r.query "dashboard" = "" ∨ env.IsValid (url.Get r.query "dashboard") = none) :
    routes.GetDashboardTemplates env r st
      = some (routes.handleDashboardResponse models.encodable
          (routes.RespType.list
            { Data := (env.GetDashboardTemplate u.ID (url.Get r.query "dashboard")).1 })
          (env.GetDashboardTemplate u.ID (url.Get r.query "dashboard")).2
          { st with calls := st.calls ++
              [service.Call.GetDashboardTemplate u.ID (url.Get r.query "dashboard")] }) := by
  have hc : ¬ (url.Get r.query "dashboard" ≠ "" ∧
      env.IsValid (url.Get r.query "dashboard") ≠ none) := by
    rintro ⟨h1, h2⟩
    rcases hok with h | h
    · exact h1 h
    · exact h2 h
  simp only [routes.GetDashboardTemplates, hu]
  rw [if_neg hc]

theorem GetBaseDashboardTemplates_all (env : Env D B) (r : Request) (st : routes.State B D)
    (he : url.Get r.query "dashboard" = "") :
    routes.GetBaseDashboardTemplates env r st
      = routes.handleDashboardResponse models.encodable
          (routes.RespType.list { Data := env.GetAllBaseTemplates }) none
          { st with calls := st.calls ++ [service.Call.GetAllBaseTemplates] } := by
  simp [routes.GetBaseDashboardTemplates, he]

theorem GetBaseDashboardTemplates_one (env : Env D B) (r : Request) (st : routes.State B D)
    (hne : url.Get r.query "dashboard" ≠ "") :
    routes.GetBaseDashboardTemplates env r st
      = routes.handleDashboardResponse models.encodable
          (routes.RespType.entity
            { Data := (env.GetDashboardTemplateBase (url.Get r.query "dashboard")).1 })
          (env.GetDashboardTemplateBase (url.Get r.query "dashboard")).2
          { st with calls := st.calls ++
              [service.Call.GetDashboardTemplateBase (url.Get r.query "dashboard")] } := by
  simp [routes.GetBaseDashboardTemplates, hne]

end paths

/-! ## What the dispatcher leaves behind -/

section outcomes

variable {T D B : Type}

theorem handleDashboardError_summary (err : Option GoError) (st : routes.State T D)
    (hs : st.w.status = none) (hb : st.w.body = []) :
    (routes.handleDashboardError err st).w.status = some (spec.classify err).1 ∧
    (routes.handleDashboardError err st).w.body
      = [routes.Encoded.errors { Errors := (spec.classify err).2 }] ∧
    (routes.handleDashboardError err st).w.sentHeader.Get "Content-Type"
      = "application/json" := by
  rw [handleDashboardError_w err st hs]
  simp [hb, Header_Get_Set]

theorem handleDashboardError_isError (e : GoError) (st : routes.State T D)
    (hs : st.w.status = none) (hb : st.w.body = []) :
    spec.isErrorResponse (routes.handleDashboardError (some e) st).w = true := by
  obtain ⟨h1, h2, _⟩ := handleDashboardError_summary (some e) st hs hb
  have hc := classify_some_status e
  simp only [spec.isErrorResponse, h1, h2]
  simp
  omega

theorem handleDashboardResponse_shape (rep : routes.RespType T) (err : Option GoError)
    (st : routes.State T D) (hs : st.w.status = none) (hb : st.w.body = []) :
    spec.isSuccessResponse
        (routes.handleDashboardResponse models.encodable rep err st).w = true ∨
      spec.isErrorResponse
        (routes.handleDashboardResponse models.encodable rep err st).w = true := by
  cases err with
  | none =>
    left
    rw [handleDashboardResponse_none _ rep st hs (marshals_models _)]
    simp [spec.isSuccessResponse, hb]
  | some e =>
    right
    rw [handleDashboardResponse_some]
    exact handleDashboardError_isError e st hs hb

theorem Dispatched_shape (h : http.Header) (st : routes.State T D) (hd : spec.Dispatched h st) :
    spec.isSuccessResponse st.w = true ∨ spec.isErrorResponse st.w = true := by
  obtain ⟨st0, hw, _, hcase⟩ := hd
  have hs : st0.w.status = none := by rw [hw]; rfl
  have hb : st0.w.body = [] := by rw [hw]; rfl
  rcases hcase with ⟨e, rfl⟩ | ⟨rep, err, rfl⟩
  · right; exact handleDashboardError_isError e st0 hs hb
  · exact handleDashboardResponse_shape rep err st0 hs hb

theorem Dispatched_no_nil (h : http.Header) (st : routes.State T D)
    (hd : spec.Dispatched h st) :
    (∀ x ∈ st.dispatched, x ≠ none) ∧ st.w.status ≠ some 500 := by
  obtain ⟨st0, hw, hdis, hcase⟩ := hd
  have hs : st0.w.status = none := by rw [hw]; rfl
  have hb : st0.w.body = [] := by rw [hw]; rfl
  rcases hcase with ⟨e, rfl⟩ | ⟨rep, err, rfl⟩
  · refine ⟨?_, ?_⟩
    · rw [handleDashboardError_dispatched, hdis]; simp
    · rw [(handleDashboardError_summary (some e) st0 hs hb).1]
      have := classify_some_status e
      intro hh
      injection hh with hh
      omega
  · cases err with
    | none =>
      rw [handleDashboardResponse_none _ rep st0 hs (marshals_models _)]
      simp [hdis]
    | some e =>
      rw [handleDashboardResponse_some]
      refine ⟨?_, ?_⟩
      · rw [handleDashboardError_dispatched, hdis]; simp
      · rw [(handleDashboardError_summary (some e) st0 hs hb).1]
        have := classify_some_status e
        intro hh
        injection hh with hh
        omega

theorem parse_cases (s : String) :
    (strconv.ParseUint s 10 64).2 ≠ none ∨ ∃ n, strconv.ParseUint s 10 64 = (n, none) := by
  rcases hq : strconv.ParseUint s 10 64 with ⟨v, err⟩
  cases err with
  | none => right; exact ⟨v, rfl⟩
  | some e => left; simp

theorem GetDashboardTemplates_cases (env : Env D B) (r : Request) (h : http.Header)
    (u : models.UserIdentity) (hu : r.user = some u) :
    ∃ st, routes.GetDashboardTemplates env r (routes.State.init h) = some st ∧
      spec.Dispatched h st := by
  by_cases hok : url.Get r.query "dashboard" = "" ∨
      env.IsValid (url.Get r.query "dashboard") = none
  · exact ⟨_, GetDashboardTemplates_pass env r _ u hu hok, _, rfl, rfl, Or.inr ⟨_, _, rfl⟩⟩
  · have hne : url.Get r.query "dashboard" ≠ "" := fun hh => hok (Or.inl hh)
    cases hv : env.IsValid (url.Get r.query "dashboard") with
    | none => exact absurd (Or.inr hv) hok
    | some e =>
      exact ⟨_, GetDashboardTemplates_invalid env r _ u e hu hne hv, _, rfl, rfl,
        Or.inl ⟨_, rfl⟩⟩

theorem UpdateDashboardTemplate_cases (env : Env D B) (r : Request) (h : http.Header)
    (u : models.UserIdentity) (hu : r.user = some u) :
    ∃ st, routes.UpdateDashboardTemplate env r (routes.State.init h) = some st ∧
      spec.Dispatched h st := by
  rcases parse_cases (chi.URLParam r "templateId") with hp | ⟨n, hp⟩
  · exact ⟨_, UpdateDashboardTemplate_bad env r _ u hu hp, _, rfl, rfl, Or.inl ⟨_, rfl⟩⟩
  · rcases hq : env.Decode r.body with ⟨d, err⟩
    cases err with
    | none =>
      exact ⟨_, UpdateDashboardTemplate_good env r _ u n d hu hp hq, _, rfl, rfl,
        Or.inr ⟨_, _, rfl⟩⟩
    | some e =>
      have hd : (env.Decode r.body).2 ≠ none := by rw [hq]; simp
      exact ⟨_, UpdateDashboardTemplate_undecodable env r _ u n hu hp hd, _, rfl, rfl,
        Or.inl ⟨_, rfl⟩⟩

theorem CopyDashboardTemplate_cases (env : Env D B) (r : Request) (h : http.Header)
    (u : models.UserIdentity) (hu : r.user = some u) :
    ∃ st, routes.CopyDashboardTemplate env r (routes.State.init h) = some st ∧
      spec.Dispatched h st := by
  rcases parse_cases (chi.URLParam r "templateId") with hp | ⟨n, hp⟩
  · exact ⟨_, CopyDashboardTemplate_bad env r _ u hu hp, _, rfl, rfl, Or.inl ⟨_, rfl⟩⟩
  · exact ⟨_, CopyDashboardTemplate_good env r _ u n hu hp, _, rfl, rfl, Or.inr ⟨_, _, rfl⟩⟩

theorem ChangeDefaultTemplate_cases (env : Env D B) (r : Request) (h : http.Header)
    (u : models.UserIdentity) (hu : r.user = some u) :
    ∃ st, routes.ChangeDefaultTemplate env r (routes.State.init h) = some st ∧
      spec.Dispatched h st := by
  rcases parse_cases (chi.URLParam r "templateId") with hp | ⟨n, hp⟩
  · exact ⟨_, ChangeDefaultTemplate_bad env r _ u hu hp, _, rfl, rfl, Or.inl ⟨_, rfl⟩⟩
  · exact ⟨_, ChangeDefaultTemplate_good env r _ u n hu hp, _, rfl, rfl, Or.inr ⟨_, _, rfl⟩⟩

theorem DeleteDashboardTemplate_cases (env : Env D B) (r : Request) (h : http.Header)
    (u : models.UserIdentity) (hu : r.user = some u) :
    ∃ st, routes.DeleteDashboardTemplate env r (routes.State.init h) = some st ∧
      (spec.Dispatched h st ∨
        (st.w.status = some 204 ∧ st.w.body = [] ∧ st.dispatched = [])) := by
  rcases parse_cases (chi.URLParam r "templateId") with hp | ⟨n, hp⟩
  · exact ⟨_, DeleteDashboardTemplate_bad env r _ u hu hp, Or.inl ⟨_, rfl, rfl, Or.inl ⟨_, rfl⟩⟩⟩
  · cases hs : env.DeleteTemplate u.ID (toUint env.uintSize n) with
    | none =>
      exact ⟨_, DeleteDashboardTemplate_good env r _ u n hu hp hs, Or.inr ⟨rfl, rfl, rfl⟩⟩
    | some e =>
      exact ⟨_, DeleteDashboardTemplate_failed env r _ u n e hu hp hs,
        Or.inl ⟨_, rfl, rfl, Or.inl ⟨_, rfl⟩⟩⟩

theorem GetBaseDashboardTemplates_cases (env : Env D B) (r : Request) (h : http.Header) :
    spec.Dispatched h (routes.GetBaseDashboardTemplates env r (routes.State.init h)) := by
  by_cases he : url.Get r.query "dashboard" = ""
  · exact ⟨_, rfl, rfl, Or.inr ⟨_, _, GetBaseDashboardTemplates_all env r _ he⟩⟩
  · exact ⟨_, rfl, rfl, Or.inr ⟨_, _, GetBaseDashboardTemplates_one env r _ he⟩⟩

end outcomes

/-! ## The response dispatcher -/

/-- C1: on a writer that has sent nothing, handleDashboardError answers by the ordered
classification: an error matching gorm.ErrRecordNotFound gets status 404 and the envelope
with exactly its own message (also when it matches util.ErrNotAuthorized too); otherwise an
error matching util.ErrNotAuthorized gets 403 and exactly the string not authorized;
otherwise any error gets 400 and exactly its own message; the nil error gets 500 and
exactly the string internal server error. The content type sent is application/json. -/
theorem handleDashboardError_classification {T D : Type} (err : Option GoError)
    (st : routes.State T D) (hs : st.w.status = none) (hb : st.w.body = []) :
    (routes.handleDashboardError err st).w.sentHeader.Get "Content-Type"
      = "application/json" ∧
    (∀ e, err = some e → errors.Is e gorm.ErrRecordNotFound = true →
      (routes.handleDashboardError err st).w.status = some 404 ∧
      (routes.handleDashboardError err st).w.body
        = [routes.Encoded.errors { Errors := [e.Error] }]) ∧
    (∀ e, err = some e → errors.Is e gorm.ErrRecordNotFound = false →
      errors.Is e util.ErrNotAuthorized = true →
      (routes.handleDashboardError err st).w.status = some 403 ∧
      (routes.handleDashboardError err st).w.body
        = [routes.Encoded.errors { Errors := ["not authorized"] }]) ∧
    (∀ e, err = some e → errors.Is e gorm.ErrRecordNotFound = false →
      errors.Is e util.ErrNotAuthorized = false →
      (routes.handleDashboardError err st).w.status = some 400 ∧
      (routes.handleDashboardError err st).w.body
        = [routes.Encoded.errors { Errors := [e.Error] }]) ∧
    (err = none →
      (routes.handleDashboardError err st).w.status = some 500 ∧
      (routes.handleDashboardError err st).w.body
        = [routes.Encoded.errors { Errors := ["internal server error"] }]) ∧
    (∀ e, err = some e → errors.Is e gorm.ErrRecordNotFound = true →
      errors.Is e util.ErrNotAuthorized = true →
      (routes.handleDashboardError err st).w.status = some 404 ∧
      (routes.handleDashboardError err st).w.body
        = [routes.Encoded.errors { Errors := [e.Error] }]) := by
  obtain ⟨h1, h2, h3⟩ := handleDashboardError_summary err st hs hb
  rw [h1, h2]
  refine ⟨h3, ?_, ?_, ?_, ?_, ?_⟩
  · intro e he hnf; subst he; simp [spec.classify, hnf]
  · intro e he hnf hna; subst he; simp [spec.classify, hnf, hna]
  · intro e he hnf hna; subst he; simp [spec.classify, hnf, hna]
  · intro he; subst he; simp [spec.classify]
  · intro e he hnf _; subst he; simp [spec.classify, hnf]

/-- Witness for C1: the error matching both sentinels is answered 404 with its own text. -/
theorem handleDashboardError_classification_witness :
    (routes.handleDashboardError (some sample.errBoth)
      (routes.State.init [] : routes.State String String)).w.status = some 404 ∧
    (routes.handleDashboardError (some sample.errBoth)
      (routes.State.init [] : routes.State String String)).w.body
      = [routes.Encoded.errors { Errors := [sample.errBoth.Error] }] :=
  (handleDashboardError_classification (some sample.errBoth)
    (routes.State.init [] : routes.State String String) rfl rfl).2.2.2.2.2
    sample.errBoth rfl (by decide) (by decide)

/-- C2 as stated fails: an error that matches util.ErrNotAuthorized and also
gorm.ErrRecordNotFound is answered 404, and its own text is in the body. -/
theorem notAuthorized_masking_counterexample :
    errors.Is sample.errBoth util.ErrNotAuthorized = true ∧
    (routes.handleDashboardError (some sample.errBoth)
      (routes.State.init [] : routes.State String String)).w.status = some 404 ∧
    (routes.handleDashboardError (some sample.errBoth)
      (routes.State.init [] : routes.State String String)).w.body
      = [routes.Encoded.errors { Errors := ["lookup: record not found; not authorized"] }] := by
  decide

/-- C2 (amended): for every error that matches util.ErrNotAuthorized and does not match
gorm.ErrRecordNotFound, whatever its text, handleDashboardError answers 403 with the
envelope holding exactly the string not authorized; any two such errors get the same
response. -/
theorem notAuthorized_masked {T D : Type} (e1 e2 : GoError) (st : routes.State T D)
    (hs : st.w.status = none) (hb : st.w.body = [])
    (h1 : errors.Is e1 util.ErrNotAuthorized = true)
    (n1 : errors.Is e1 gorm.ErrRecordNotFound = false)
    (h2 : errors.Is e2 util.ErrNotAuthorized = true)
    (n2 : errors.Is e2 gorm.ErrRecordNotFound = false) :
    (routes.handleDashboardError (some e1) st).w.status = some 403 ∧
    (routes.handleDashboardError (some e1) st).w.body
      = [routes.Encoded.errors { Errors := ["not authorized"] }] ∧
    (routes.handleDashboardError (some e1) st).w
      = (routes.handleDashboardError (some e2) st).w := by
  rw [handleDashboardError_w (some e1) st hs, handleDashboardError_w (some e2) st hs]
  simp [spec.classify, h1, n1, h2, n2, hb]

/-- Witness for C2 (amended): the bare sentinel text and a wrapped ownership message get
the same 403 response. -/
theorem notAuthorized_masked_witness :
    (routes.handleDashboardError (some sample.errNotOwner)
      (routes.State.init [] : routes.State String String)).w.status = some 403 ∧
    (routes.handleDashboardError (some sample.errNotOwner)
      (routes.State.init [] : routes.State String String)).w.body
      = [routes.Encoded.errors { Errors := ["not authorized"] }] ∧
    (routes.handleDashboardError (some sample.errNotOwner)
      (routes.State.init [] : routes.State String String)).w
      = (routes.handleDashboardError
          (some (GoError.value (some util.ErrNotAuthorized) "not authorized"))
          (routes.State.init [] : routes.State String String)).w :=
  notAuthorized_masked sample.errNotOwner
    (GoError.value (some util.ErrNotAuthorized) "not authorized")
    (routes.State.init [] : routes.State String String) rfl rfl
    (by decide) (by decide) (by decide) (by decide)

/-- C4: when the templateId route parameter does not parse as an unsigned 64-bit decimal
(it is empty, has a character that is not a decimal digit such as a sign, or denotes a
number of 2^64 or more), strconv.ParseUint fails and each of UpdateDashboardTemplate,
CopyDashboardTemplate, DeleteDashboardTemplate and ChangeDefaultTemplate responds 400 with
the envelope holding exactly the string invalid template ID, calls no service function
and does not decode the request body. -/
theorem invalid_templateId_rejected {D B : Type} (env : Env D B) (r : Request)
    (h : http.Header) (u : models.UserIdentity) (hu : r.user = some u)
    (hbad : ¬ spec.ParsesAsUint64 (chi.URLParam r "templateId")) :
    (strconv.ParseUint (chi.URLParam r "templateId") 10 64).2 ≠ none ∧
    spec.RejectsTemplateId (routes.UpdateDashboardTemplate env r (routes.State.init h)) ∧
    spec.RejectsTemplateId (routes.CopyDashboardTemplate env r (routes.State.init h)) ∧
    spec.RejectsTemplateId (routes.DeleteDashboardTemplate env r (routes.State.init h)) ∧
    spec.RejectsTemplateId (routes.ChangeDefaultTemplate env r (routes.State.init h)) := by
  have hp := ParseUint_err _ hbad
  have key : ∀ res : Option (routes.State D D),
      res = some (routes.handleDashboardError (some (errors.New "invalid template ID"))
        (routes.State.init h)) → spec.RejectsTemplateId res := by
    intro res hres
    obtain ⟨h1, h2, _⟩ := handleDashboardError_summary
      (some (errors.New "invalid template ID")) (routes.State.init h : routes.State D D)
      rfl rfl
    refine ⟨_, hres, ?_, ?_, ?_, ?_⟩
    · rw [h1]; rfl
    · rw [h2]; rfl
    · rw [handleDashboardError_calls]; rfl
    · rw [handleDashboardError_bodyDecodes]; rfl
  exact ⟨hp, key _ (UpdateDashboardTemplate_bad env r _ u hu hp),
    key _ (CopyDashboardTemplate_bad env r _ u hu hp),
    key _ (DeleteDashboardTemplate_bad env r _ u hu hp),
    key _ (ChangeDefaultTemplate_bad env r _ u hu hp)⟩

/-- Witness for C4: the signed template id -1 is rejected by all four handlers. -/
theorem invalid_templateId_rejected_witness :
    spec.RejectsTemplateId
      (routes.UpdateDashboardTemplate (sample.env 64 none) (sample.request "-1" "")
        (routes.State.init [])) ∧
    spec.RejectsTemplateId
      (routes.DeleteDashboardTemplate (sample.env 64 none) (sample.request "-1" "")
        (routes.State.init [])) :=
  have w := invalid_templateId_rejected (sample.env 64 none) (sample.request "-1" "") []
    { ID := 7 } rfl (by decide)
  ⟨w.2.1, w.2.2.2.1⟩

/-- C5 as stated fails: 18446744073709551616 is a non-empty string of decimal digits
denoting 2^64, yet CopyDashboardTemplate answers 400 and calls no service function; and on
a platform whose uint is 32 bits wide the digit string 4294967296 reaches the service as
template id 0. -/
theorem digit_string_templateId_counterexample :
    (spec.IsDecimal "18446744073709551616" ∧
      spec.decimalValue "18446744073709551616" = 18446744073709551616 ∧
      (routes.CopyDashboardTemplate (sample.env 64 none)
          (sample.request "18446744073709551616" "") (routes.State.init [])).map
        (fun st => (st.w.status, st.calls)) = some (some 400, [])) ∧
    (spec.IsDecimal "4294967296" ∧
      spec.decimalValue "4294967296" = 4294967296 ∧
      (routes.CopyDashboardTemplate (sample.env 32 none)
          (sample.request "4294967296" "") (routes.State.init [])).map
        (fun st => st.calls) = some [service.Call.CopyDashboardTemplate 7 0]) := by
  decide

/-- C5 (amended): when the templateId route parameter is a non-empty string of decimal
digits denoting a number n below 2^64 that also fits the platform uint, ParseUint returns
n, and each of CopyDashboardTemplate, DeleteDashboardTemplate and ChangeDefaultTemplate
makes exactly one service call, with template id n and the user ID of the request
context; so does UpdateDashboardTemplate when the body decodes, passing the decoded
template as well. -/
theorem valid_templateId_passed {D B : Type} (env : Env D B) (r : Request)
    (h : http.Header) (u : models.UserIdentity) (hu : r.user = some u)
    (hdec : spec.IsDecimal (chi.URLParam r "templateId"))
    (h64 : spec.decimalValue (chi.URLParam r "templateId") < 2 ^ 64)
    (hfit : spec.decimalValue (chi.URLParam r "templateId") < 2 ^ env.uintSize) :
    strconv.ParseUint (chi.URLParam r "templateId") 10 64
      = (spec.decimalValue (chi.URLParam r "templateId"), none) ∧
    (∃ st, routes.CopyDashboardTemplate env r (routes.State.init h) = some st ∧
      st.calls = [service.Call.CopyDashboardTemplate u.ID
        (spec.decimalValue (chi.URLParam r "templateId"))]) ∧
    (∃ st, routes.DeleteDashboardTemplate env r (routes.State.init h) = some st ∧
      st.calls = [service.Call.DeleteTemplate u.ID
        (spec.decimalValue (chi.URLParam r "templateId"))]) ∧
    (∃ st, routes.ChangeDefaultTemplate env r (routes.State.init h) = some st ∧
      st.calls = [service.Call.ChangeDefaultTemplate u.ID
        (spec.decimalValue (chi.URLParam r "templateId"))]) ∧
    (∀ d, env.Decode r.body = (d, none) →
      ∃ st, routes.UpdateDashboardTemplate env r (routes.State.init h) = some st ∧
        st.calls = [service.Call.UpdateDashboardTemplate
          (spec.decimalValue (chi.URLParam r "templateId")) u.ID d]) := by
  have hp := ParseUint_ok _ (⟨hdec, h64⟩ : spec.ParsesAsUint64 (chi.URLParam r "templateId"))
  have hu64 : toUint env.uintSize (spec.decimalValue (chi.URLParam r "templateId"))
      = spec.decimalValue (chi.URLParam r "templateId") := Nat.mod_eq_of_lt hfit
  have hcalls : ∀ (rep : routes.RespType D) (err : Option GoError) (st : routes.State D D),
      (routes.handleDashboardResponse models.encodable rep err st).calls = st.calls := by
    intro rep err st
    cases err with
    | none => rfl
    | some e => rw [handleDashboardResponse_some, handleDashboardError_calls]
  refine ⟨hp, ?_, ?_, ?_, ?_⟩
  · refine ⟨_, CopyDashboardTemplate_good env r _ u _ hu hp, ?_⟩
    rw [hcalls, hu64]; rfl
  · cases hs : env.DeleteTemplate u.ID
        (toUint env.uintSize (spec.decimalValue (chi.URLParam r "templateId"))) with
    | none =>
      refine ⟨_, DeleteDashboardTemplate_good env r _ u _ hu hp hs, ?_⟩
      simp only [hu64]; rfl
    | some e =>
      refine ⟨_, DeleteDashboardTemplate_failed env r _ u _ e hu hp hs, ?_⟩
      rw [handleDashboardError_calls, hu64]; rfl
  · refine ⟨_, ChangeDefaultTemplate_good env r _ u _ hu hp, ?_⟩
    rw [hcalls, hu64]; rfl
  · intro d hd
    refine ⟨_, UpdateDashboardTemplate_good env r _ u _ d hu hp hd, ?_⟩
    rw [hcalls, hu64]; rfl

/-- Witness for C5 (amended): template id 42 of user 7 reaches service.DeleteTemplate. -/
theorem valid_templateId_passed_witness :
    ∃ st, routes.DeleteDashboardTemplate (sample.env 64 none) (sample.request "42" "")
        (routes.State.init []) = some st ∧
      st.calls = [service.Call.DeleteTemplate 7 42] :=
  (valid_templateId_passed (sample.env 64 none) (sample.request "42" "") [] { ID := 7 } rfl
    (by decide) (by decide) (by decide)).2.2.1

/-! ## Response shapes and the remaining handler contracts -/

/-- C6 as stated fails: a successful delete is answered with status 204 and an empty
body, which is neither a success envelope with status 200 nor an error envelope. -/
theorem response_shape_counterexample :
    (routes.DeleteDashboardTemplate (sample.env 64 none) (sample.request "42" "")
        (routes.State.init [])).map
      (fun st => (st.w.status, st.w.body, spec.isSuccessResponse st.w,
        spec.isErrorResponse st.w))
      = some (some 204, [], false, false) := by
  decide

/-- C6 (amended): every handler writes exactly one of a success envelope with status 200
or an error envelope with a 4xx/5xx status, except that DeleteDashboardTemplate answers a
successful delete with status 204 and an empty body instead of a success envelope. A body
is a single envelope, so no response mixes data and errors. -/
theorem response_shape {D B : Type} (env : Env D B) (r : Request) (h : http.Header) :
    (∀ u, r.user = some u →
      (∃ st, routes.GetDashboardTemplates env r (routes.State.init h) = some st ∧
        (spec.isSuccessResponse st.w = true ∨ spec.isErrorResponse st.w = true)) ∧
      (∃ st, routes.UpdateDashboardTemplate env r (routes.State.init h) = some st ∧
        (spec.isSuccessResponse st.w = true ∨ spec.isErrorResponse st.w = true)) ∧
      (∃ st, routes.CopyDashboardTemplate env r (routes.State.init h) = some st ∧
        (spec.isSuccessResponse st.w = true ∨ spec.isErrorResponse st.w = true)) ∧
      (∃ st, routes.ChangeDefaultTemplate env r (routes.State.init h) = some st ∧
        (spec.isSuccessResponse st.w = true ∨ spec.isErrorResponse st.w = true)) ∧
      (∃ st, routes.DeleteDashboardTemplate env r (routes.State.init h) = some st ∧
        (spec.isNoContentResponse st.w = true ∨ spec.isErrorResponse st.w = true))) ∧
    (spec.isSuccessResponse
        (routes.GetBaseDashboardTemplates env r (routes.State.init h)).w = true ∨
      spec.isErrorResponse
        (routes.GetBaseDashboardTemplates env r (routes.State.init h)).w = true) := by
  refine ⟨?_, Dispatched_shape h _ (GetBaseDashboardTemplates_cases env r h)⟩
  intro u hu
  refine ⟨?_, ?_, ?_, ?_, ?_⟩
  · obtain ⟨st, hst, hd⟩ := GetDashboardTemplates_cases env r h u hu
    exact ⟨st, hst, Dispatched_shape h st hd⟩
  · obtain ⟨st, hst, hd⟩ := UpdateDashboardTemplate_cases env r h u hu
    exact ⟨st, hst, Dispatched_shape h st hd⟩
  · obtain ⟨st, hst, hd⟩ := CopyDashboardTemplate_cases env r h u hu
    exact ⟨st, hst, Dispatched_shape h st hd⟩
  · obtain ⟨st, hst, hd⟩ := ChangeDefaultTemplate_cases env r h u hu
    exact ⟨st, hst, Dispatched_shape h st hd⟩
  · rcases parse_cases (chi.URLParam r "templateId") with hp | ⟨n, hp⟩
    · refine ⟨_, DeleteDashboardTemplate_bad env r _ u hu hp, Or.inr ?_⟩
      exact handleDashboardError_isError _ _ rfl rfl
    · cases hs : env.DeleteTemplate u.ID (toUint env.uintSize n) with
      | none =>
        exact ⟨_, DeleteDashboardTemplate_good env r _ u n hu hp hs, Or.inl rfl⟩
      | some e =>
        refine ⟨_, DeleteDashboardTemplate_failed env r _ u n e hu hp hs, Or.inr ?_⟩
        exact handleDashboardError_isError _ _ rfl rfl

/-- Witness for C6 (amended): a delete that the store refuses is an error envelope. -/
theorem response_shape_witness :
    ∃ st, routes.DeleteDashboardTemplate (sample.env 64 (some sample.errStore))
        (sample.request "42" "") (routes.State.init []) = some st ∧
      (spec.isNoContentResponse st.w = true ∨ spec.isErrorResponse st.w = true) :=
  ((response_shape (sample.env 64 (some sample.errStore)) (sample.request "42" "") []).1
    { ID := 7 } rfl).2.2.2.2

/-- C7: when the templateId of a delete request parses, a delete that the service
performs without error is answered with status 204 and an empty body; a delete for which
the service returns an error is answered exactly as handleDashboardError answers that
error, and the status is not 204. -/
theorem DeleteDashboardTemplate_contract {D B : Type} (env : Env D B) (r : Request)
    (h : http.Header) (u : models.UserIdentity) (n : Nat) (hu : r.user = some u)
    (hp : strconv.ParseUint (chi.URLParam r "templateId") 10 64 = (n, none)) :
    (env.DeleteTemplate u.ID (toUint env.uintSize n) = none →
      ∃ st, routes.DeleteDashboardTemplate env r (routes.State.init h) = some st ∧
        st.w.status = some 204 ∧ st.w.body = []) ∧
    (∀ e, env.DeleteTemplate u.ID (toUint env.uintSize n) = some e →
      ∃ st, routes.DeleteDashboardTemplate env r (routes.State.init h) = some st ∧
        st.w = (routes.handleDashboardError (some e)
          (routes.State.init h : routes.State D D)).w ∧
        st.w.status ≠ some 204) := by
  constructor
  · intro hs
    exact ⟨_, DeleteDashboardTemplate_good env r _ u n hu hp hs, rfl, rfl⟩
  · intro e hs
    refine ⟨_, DeleteDashboardTemplate_failed env r _ u n e hu hp hs, ?_, ?_⟩
    · rw [handleDashboardError_w _ _ rfl, handleDashboardError_w _ _ rfl]
    · rw [(handleDashboardError_summary (some e) _ rfl rfl).1]
      have := classify_some_status e
      intro hh
      injection hh with hh
      omega

/-- Witness for C7: deleting template 42 succeeds with status 204 and no body. -/
theorem DeleteDashboardTemplate_contract_witness :
    ∃ st, routes.DeleteDashboardTemplate (sample.env 64 none) (sample.request "42" "")
        (routes.State.init []) = some st ∧
      st.w.status = some 204 ∧ st.w.body = [] :=
  (DeleteDashboardTemplate_contract (sample.env 64 none) (sample.request "42" "") []
    { ID := 7 } 42 rfl (by decide)).1 rfl

/-- C9 as stated fails: GetBaseDashboardTemplates performs no category check; a category
that IsValid rejects is passed to service.GetDashboardTemplateBase. -/
theorem GetBaseDashboardTemplates_counterexample :
    url.Get (sample.request "" "bogus").query "dashboard" = "bogus" ∧
    (sample.env 64 none).IsValid "bogus" ≠ none ∧
    (routes.GetBaseDashboardTemplates (sample.env 64 none) (sample.request "" "bogus")
      (routes.State.init [])).calls = [service.Call.GetDashboardTemplateBase "bogus"] := by
  decide

/-- C9 (amended): GetBaseDashboardTemplates with an empty dashboard parameter answers 200
with the list envelope holding exactly the result of service.GetAllBaseTemplates; with a
non-empty parameter, recognised or not, it calls service.GetDashboardTemplateBase with
that parameter as the category and nothing else, and dispatches the outcome: status 200
with the entity envelope of the returned template when the service returns no error, and
exactly the response of handleDashboardError, an error envelope, when it returns one. -/
theorem GetBaseDashboardTemplates_contract {D B : Type} (env : Env D B) (r : Request)
    (h : http.Header) :
    (url.Get r.query "dashboard" = "" →
      (routes.GetBaseDashboardTemplates env r (routes.State.init h)).w.status = some 200 ∧
      (routes.GetBaseDashboardTemplates env r (routes.State.init h)).w.body
        = [routes.Encoded.data (routes.RespType.list { Data := env.GetAllBaseTemplates })] ∧
      (routes.GetBaseDashboardTemplates env r (routes.State.init h)).calls
        = [service.Call.GetAllBaseTemplates]) ∧
    (url.Get r.query "dashboard" ≠ "" →
      (routes.GetBaseDashboardTemplates env r (routes.State.init h)).calls
        = [service.Call.GetDashboardTemplateBase (url.Get r.query "dashboard")] ∧
      (∀ t, env.GetDashboardTemplateBase (url.Get r.query "dashboard") = (t, none) →
        (routes.GetBaseDashboardTemplates env r (routes.State.init h)).w.status = some 200 ∧
        (routes.GetBaseDashboardTemplates env r (routes.State.init h)).w.body
          = [routes.Encoded.data (routes.RespType.entity { Data := t })]) ∧
      (∀ t e, env.GetDashboardTemplateBase (url.Get r.query "dashboard") = (t, some e) →
        (routes.GetBaseDashboardTemplates env r (routes.State.init h)).w
          = (routes.handleDashboardError (some e)
              (routes.State.init h : routes.State B D)).w ∧
        spec.isErrorResponse
          (routes.GetBaseDashboardTemplates env r (routes.State.init h)).w = true)) := by
  constructor
  · intro he
    rw [GetBaseDashboardTemplates_all env r _ he, handleDashboardResponse_none _ _ _ rfl (marshals_models _)]
    exact ⟨rfl, rfl, rfl⟩
  · intro hne
    rw [GetBaseDashboardTemplates_one env r _ hne]
    refine ⟨?_, ?_, ?_⟩
    · cases (env.GetDashboardTemplateBase (url.Get r.query "dashboard")).2 with
      | none => rfl
      | some e => rw [handleDashboardResponse_some, handleDashboardError_calls]; rfl
    · intro t ht
      rw [ht, handleDashboardResponse_none _ _ _ rfl (marshals_models _)]
      exact ⟨rfl, rfl⟩
    · intro t e ht
      rw [ht, handleDashboardResponse_some]
      refine ⟨?_, handleDashboardError_isError _ _ rfl rfl⟩
      rw [handleDashboardError_w _ _ rfl, handleDashboardError_w _ _ rfl]

/-- Witness for C9 (amended): without a dashboard parameter all base templates are
returned in a list envelope with status 200. -/
theorem GetBaseDashboardTemplates_contract_witness :
    (routes.GetBaseDashboardTemplates (sample.env 64 none) (sample.request "" "")
      (routes.State.init [] : routes.State String String)).w.status = some 200 ∧
    (routes.GetBaseDashboardTemplates (sample.env 64 none) (sample.request "" "")
      (routes.State.init [] : routes.State String String)).w.body
      = [routes.Encoded.data (routes.RespType.list { Data := ["base landingPage"] })] ∧
    (routes.GetBaseDashboardTemplates (sample.env 64 none) (sample.request "" "")
      (routes.State.init [] : routes.State String String)).calls
      = [service.Call.GetAllBaseTemplates] :=
  (GetBaseDashboardTemplates_contract (sample.env 64 none) (sample.request "" "") []).1
    (by decide)

/-- C10: on a writer that has sent nothing, handleDashboardError sends status 500 exactly
when it is called with the nil error; and whatever the request and the service outcomes,
every call of handleDashboardError made by a handler of this file, directly or through
handleDashboardResponse, has a non-nil error, and no handler responds with status 500. -/
theorem no_internal_server_error {D B : Type} (env : Env D B) (r : Request)
    (h : http.Header) :
    (∀ (err : Option GoError) (st : routes.State D D), st.w.status = none →
      ((routes.handleDashboardError err st).w.status = some 500 ↔ err = none)) ∧
    (∀ st, routes.GetDashboardTemplates env r (routes.State.init h) = some st →
      (∀ x ∈ st.dispatched, x ≠ none) ∧ st.w.status ≠ some 500) ∧
    (∀ st, routes.UpdateDashboardTemplate env r (routes.State.init h) = some st →
      (∀ x ∈ st.dispatched, x ≠ none) ∧ st.w.status ≠ some 500) ∧
    (∀ st, routes.CopyDashboardTemplate env r (routes.State.init h) = some st →
      (∀ x ∈ st.dispatched, x ≠ none) ∧ st.w.status ≠ some 500) ∧
    (∀ st, routes.DeleteDashboardTemplate env r (routes.State.init h) = some st →
      (∀ x ∈ st.dispatched, x ≠ none) ∧ st.w.status ≠ some 500) ∧
    (∀ st, routes.ChangeDefaultTemplate env r (routes.State.init h) = some st →
      (∀ x ∈ st.dispatched, x ≠ none) ∧ st.w.status ≠ some 500) ∧
    ((∀ x ∈ (routes.GetBaseDashboardTemplates env r (routes.State.init h)).dispatched,
        x ≠ none) ∧
      (routes.GetBaseDashboardTemplates env r (routes.State.init h)).w.status ≠ some 500) := by
  refine ⟨?_, ?_, ?_, ?_, ?_, ?_, Dispatched_no_nil h _ (GetBaseDashboardTemplates_cases env r h)⟩
  · intro err st hs
    rw [handleDashboardError_w err st hs]
    cases err with
    | none => simp [spec.classify]
    | some e =>
      have := classify_some_status e
      simp only [Option.some.injEq]
      constructor
      · intro hh; omega
      · intro hh; cases hh
  · intro st hst
    cases hu : r.user with
    | none => simp [routes.GetDashboardTemplates, hu] at hst
    | some u =>
      obtain ⟨st2, hst2, hd⟩ := GetDashboardTemplates_cases env r h u hu
      rw [hst] at hst2
      injection hst2 with hst2
      subst hst2
      exact Dispatched_no_nil h st hd
  · intro st hst
    cases hu : r.user with
    | none => simp [routes.UpdateDashboardTemplate, hu] at hst
    | some u =>
      obtain ⟨st2, hst2, hd⟩ := UpdateDashboardTemplate_cases env r h u hu
      rw [hst] at hst2
      injection hst2 with hst2
      subst hst2
      exact Dispatched_no_nil h st hd
  · intro st hst
    cases hu : r.user with
    | none => simp [routes.CopyDashboardTemplate, hu] at hst
    | some u =>
      obtain ⟨st2, hst2, hd⟩ := CopyDashboardTemplate_cases env r h u hu
      rw [hst] at hst2
      injection hst2 with hst2
      subst hst2
      exact Dispatched_no_nil h st hd
  · intro st hst
    cases hu : r.user with
    | none => simp [routes.DeleteDashboardTemplate, hu] at hst
    | some u =>
      obtain ⟨st2, hst2, hd⟩ := DeleteDashboardTemplate_cases env r h u hu
      rw [hst] at hst2
      injection hst2 with hst2
      subst hst2
      rcases hd with hd | ⟨h1, _, h3⟩
      · exact Dispatched_no_nil h st hd
      · rw [h1, h3]
        simp
  · intro st hst
    cases hu : r.user with
    | none => simp [routes.ChangeDefaultTemplate, hu] at hst
    | some u =>
      obtain ⟨st2, hst2, hd⟩ := ChangeDefaultTemplate_cases env r h u hu
      rw [hst] at hst2
      injection hst2 with hst2
      subst hst2
      exact Dispatched_no_nil h st hd

/-- Witness for C10: an update with an undecodable template id dispatches one non-nil
error and does not answer 500. -/
theorem no_internal_server_error_witness :
    (∀ x ∈ (routes.handleDashboardError (some (errors.New "invalid template ID"))
        (routes.State.init [] : routes.State String String)).dispatched, x ≠ none) ∧
    (routes.handleDashboardError (some (errors.New "invalid template ID"))
        (routes.State.init [] : routes.State String String)).w.status ≠ some 500 :=
  (no_internal_server_error (sample.env 64 none) (sample.request "x" "") []).2.2.1
    (routes.handleDashboardError (some (errors.New "invalid template ID"))
      (routes.State.init [])) rfl
